import Mathlib

/-!
Verification of the `easy_storage` key-value storage library.

The library (src/lib.rs, module `kv_storage`) defines a `KvStorage` trait
with `read`/`write` by string key, and two backends:

* `WasmCookiesKvStorage` (browser target) backed by the `wasm_cookies`
  crate's cookie jar;
* `FileBasedKvStorage` (windows/android targets) backed by the local
  filesystem, one file per key, rooted at a platform-resolved base path.

We give a shallow embedding: the filesystem and the cookie jar become
explicit state values threaded through the operations.  Paths are modelled
as lists of components (no `.`/`..` components, which never occur in the
paths the library builds).  Machine I/O errors other than "file not found /
missing parent directory" (permissions, disk-full, ...) are outside the
model: `create_dir_all` always succeeds and `fs::write` fails only when the
parent directory is absent, matching a healthy filesystem.
-/

namespace EasyStorage

/-- A filesystem path, as its list of components. -/
abbrev Path := List String

/-- Rust `PathBuf::with_file_name(name)`: drop the final (file-name)
component, if any, and append `name`.  Sibling composition, not
directory-child composition. -/
def withFileName (p : Path) (name : String) : Path :=
  p.dropLast ++ [name]

/-- Association-list lookup with decidable key equality. -/
def assocFind {α β : Type} [DecidableEq α] : List (α × β) → α → Option β
  | [], _ => none
  | (x, y) :: rest, a => if x = a then some y else assocFind rest a

/-- Association-list update: replace the binding for `a`, or append it. -/
def assocSet {α β : Type} [DecidableEq α] : List (α × β) → α → β → List (α × β)
  | [], a, b => [(a, b)]
  | (x, y) :: rest, a, b =>
      if x = a then (a, b) :: rest else (x, y) :: assocSet rest a b

instance {ε α : Type} [DecidableEq ε] [DecidableEq α] :
    DecidableEq (Except ε α) := fun x y =>
  match x, y with
  | Except.ok a, Except.ok b =>
      if h : a = b then Decidable.isTrue (by rw [h])
      else Decidable.isFalse (fun hc => h (Except.ok.inj hc))
  | Except.error a, Except.error b =>
      if h : a = b then Decidable.isTrue (by rw [h])
      else Decidable.isFalse (fun hc => h (Except.error.inj hc))
  | Except.ok _, Except.error _ =>
      Decidable.isFalse (fun hc => Except.noConfusion hc)
  | Except.error _, Except.ok _ =>
      Decidable.isFalse (fun hc => Except.noConfusion hc)

/-- `std::io::Error`, restricted to the kind the model can produce. -/
inductive IOError : Type
  | notFound
  deriving DecidableEq, Repr

/-- The filesystem state: the set of existing directories and the contents
of existing regular files. -/
structure FS where
  dirs : List Path
  files : List (Path × String)
  deriving DecidableEq, Repr

/-- A directory exists when it is the root (empty path) or recorded in
`dirs`. -/
def FS.dirExists (fs : FS) (p : Path) : Prop :=
  p = [] ∨ p ∈ fs.dirs

instance (fs : FS) (p : Path) : Decidable (fs.dirExists p) := by
  unfold FS.dirExists; infer_instance

/-- `std::fs::create_dir_all(p)`: create `p` and every missing ancestor.
Infallible in the model (no permission errors). -/
def FS.createDirAll (fs : FS) (p : Path) : FS :=
  { fs with dirs := p.inits ++ fs.dirs }

/-- `std::fs::read_to_string(p)`: the contents of the file at `p`, or a
not-found error. -/
def FS.readToString (fs : FS) (p : Path) : Except IOError String :=
  match assocFind fs.files p with
  | some v => Except.ok v
  | none => Except.error IOError.notFound

/-- `std::fs::write(p, v)`: create or truncate the file at `p` with
contents `v`; fails when the parent directory does not exist. -/
def FS.writeFile (fs : FS) (p : Path) (v : String) : Except IOError FS :=
  if fs.dirExists p.dropLast then
    Except.ok { fs with files := assocSet fs.files p v }
  else
    Except.error IOError.notFound

/-- The hardcoded application name `APP_NAME` of the file backend. -/
def APP_NAME : String := "PokeIpGo"

/-- `FileBasedKvStorage(PathBuf)`: the resolved base path. -/
structure FileBasedKvStorage where
  base : Path
  deriving DecidableEq, Repr

/-- `FileBasedKvStorage::get_roaming_path` on windows: read the `APPDATA`
environment variable (the environment is modelled as a partial map from
variable names to already-parsed paths) and push `APP_NAME`; `expect`
aborts construction when the variable is absent, modelled as `none`. -/
def get_roaming_path (env : String → Option Path) : Option Path :=
  (env "APPDATA").map (fun p => p ++ [APP_NAME])

/-- `impl Default for FileBasedKvStorage` on windows: wrap the resolved
roaming path; construction fails (panics) exactly when resolution does. -/
def FileBasedKvStorage.defaultWindows (env : String → Option Path) :
    Option FileBasedKvStorage :=
  (get_roaming_path env).map FileBasedKvStorage.mk

/-- `FileBasedKvStorage::read`: `create_dir_all` on the base path, then
`read_to_string` on `base.with_file_name(key)`.  (The `log::warn!` on
failure is an external logging sink with no effect on the result.) -/
def FileBasedKvStorage.read (st : FileBasedKvStorage) (key : String)
    (fs : FS) : Except IOError String × FS :=
  let fs1 := fs.createDirAll st.base
  (fs1.readToString (withFileName st.base key), fs1)

/-- `FileBasedKvStorage::write`: `create_dir_all` on the base path, then
`fs::write` of `value` to `base.with_file_name(key)`. -/
def FileBasedKvStorage.write (st : FileBasedKvStorage) (key value : String)
    (fs : FS) : Except IOError Unit × FS :=
  let fs1 := fs.createDirAll st.base
  match fs1.writeFile (withFileName st.base key) value with
  | Except.ok fs2 => (Except.ok (), fs2)
  | Except.error e => (Except.error e, fs1)

/-- `kv_storage::ReadError`. -/
inductive ReadError : Type
  | unknown
  deriving DecidableEq, Repr

/-- `kv_storage::WriteError`. -/
inductive WriteError : Type
  | unknown
  deriving DecidableEq, Repr

/-- `wasm_cookies::FromUrlEncodingError`. Modelled from the spec: the
external `wasm_cookies` crate's URL-decoding error (its internal structure
is irrelevant to the claims). -/
inductive FromUrlEncodingError : Type
  | decodeFailed
  deriving DecidableEq, Repr

/-- `core::convert::Infallible`: the uninhabited error type. -/
inductive Infallible : Type

/-- `WasmCookieReadError`: URL-decoding failure or a wrapped generic
read error. -/
inductive WasmCookieReadError : Type
  | urlDecodeError (e : FromUrlEncodingError)
  | other (e : ReadError)
  deriving DecidableEq, Repr

/-- The browser cookie jar.  Modelled from the spec: each cookie name maps
to the outcome of URL-decoding its stored value (`wasm_cookies::get`
returns `Option<Result<String, FromUrlEncodingError>>`); entries written
through `wasm_cookies::set` always decode, external actors may leave
malformed ones. -/
abbrev CookieJar := List (String × Except FromUrlEncodingError String)

/-- Modelled from the spec: `wasm_cookies::get(key)` — look the cookie up
by name, yielding its URL-decoding outcome when present. -/
def wasmCookiesGet (jar : CookieJar) (key : String) :
    Option (Except FromUrlEncodingError String) :=
  assocFind jar key

/-- Modelled from the spec: `wasm_cookies::set(key, value, options)` with
default options — store the cookie under `key`; the stored value
URL-decodes back to `value`. -/
def wasmCookiesSet (jar : CookieJar) (key value : String) : CookieJar :=
  assocSet jar key (Except.ok value)

/-- `WasmCookiesKvStorage::read`: absent cookie yields `Ok("")`; a present
cookie yields its decoded value, a decode failure mapped into
`WasmCookieReadError`. -/
def WasmCookiesKvStorage.read (key : String) (jar : CookieJar) :
    Except WasmCookieReadError String :=
  match wasmCookiesGet jar key with
  | some cookie => cookie.mapError WasmCookieReadError.urlDecodeError
  | none => Except.ok ""

/-- `WasmCookiesKvStorage::write`: set the cookie with default options;
always returns `Ok(())`, the error type being `Infallible`. -/
def WasmCookiesKvStorage.write (key value : String) (jar : CookieJar) :
    Except Infallible Unit × CookieJar :=
  (Except.ok (), wasmCookiesSet jar key value)

/-! ### Helper lemmas -/

theorem assocFind_assocSet_self {α β : Type} [DecidableEq α]
    (l : List (α × β)) (a : α) (b : β) :
    assocFind (assocSet l a b) a = some b := by
  induction l with
  | nil => simp [assocSet, assocFind]
  | cons hd tl ih =>
      obtain ⟨x, y⟩ := hd
      by_cases hx : x = a
      · simp [assocSet, hx, assocFind]
      · simp [assocSet, hx, assocFind, ih]

theorem assocFind_assocSet_ne {α β : Type} [DecidableEq α]
    (l : List (α × β)) (a a' : α) (b : β) (h : a' ≠ a) :
    assocFind (assocSet l a b) a' = assocFind l a' := by
  induction l with
  | nil => simp [assocSet, assocFind, Ne.symm h]
  | cons hd tl ih =>
      obtain ⟨x, y⟩ := hd
      by_cases hx : x = a
      · subst hx
        simp [assocSet, assocFind, Ne.symm h]
      · simp [assocSet, hx, assocFind, ih]

theorem dropLast_mem_inits (p : Path) : p.dropLast ∈ p.inits := by
  rw [List.mem_inits]
  exact ⟨p.drop (p.length - 1), by
    rw [List.dropLast_eq_take, List.take_append_drop]⟩

theorem dirExists_dropLast_createDirAll (fs : FS) (p : Path) :
    (fs.createDirAll p).dirExists p.dropLast := by
  refine Or.inr ?_
  simp only [FS.createDirAll, List.mem_append]
  exact Or.inl (dropLast_mem_inits p)

theorem files_createDirAll (fs : FS) (p : Path) :
    (fs.createDirAll p).files = fs.files := rfl

theorem writeFile_of_dirExists (fs : FS) (p : Path) (v : String)
    (h : fs.dirExists p.dropLast) :
    fs.writeFile p v = Except.ok { fs with files := assocSet fs.files p v } := by
  simp [FS.writeFile, h]

theorem self_mem_inits (p : Path) : p ∈ p.inits := by
  simp [List.mem_inits]

/-- The file backend's write always succeeds in the model: `create_dir_all`
provides the parent directory of the sibling path; the resulting state is
fully characterized. -/
theorem fileWrite_eq (st : FileBasedKvStorage) (k v : String) (fs : FS) :
    st.write k v fs =
      (Except.ok (), FS.mk (st.base.inits ++ fs.dirs)
        (assocSet fs.files (withFileName st.base k) v)) := by
  have hdir : (fs.createDirAll st.base).dirExists
      (withFileName st.base k).dropLast := by
    have hdl : (withFileName st.base k).dropLast = st.base.dropLast := by
      simp [withFileName]
    rw [hdl]
    exact dirExists_dropLast_createDirAll fs st.base
  have hw := writeFile_of_dirExists _ _ v hdir
  simp only [FileBasedKvStorage.write]
  rw [hw]
  simp [FS.createDirAll]

/-- The value a file-backend read returns depends only on the files, not on
the existing directories. -/
theorem fileRead_fst (st : FileBasedKvStorage) (k : String) (fs : FS) :
    (st.read k fs).1 = fs.readToString (withFileName st.base k) := rfl

/-! ### Claims -/

/-- C1: Write-then-read consistency on the same backend instance: if
`write(k, v)` succeeds then an immediately following `read(k)`, with no
intervening write to `k` and no external mutation of the medium, returns
`v` — for the file backend and for the cookie backend. -/
theorem C1_write_then_read (st : FileBasedKvStorage) (k v : String)
    (fs : FS) (jar : CookieJar) :
    ((st.write k v fs).1 = Except.ok () →
      (st.read k (st.write k v fs).2).1 = Except.ok v) ∧
    (WasmCookiesKvStorage.write k v jar).1 = Except.ok () ∧
    WasmCookiesKvStorage.read k (WasmCookiesKvStorage.write k v jar).2 =
      Except.ok v := by
  refine ⟨fun _ => ?_, rfl, ?_⟩
  · rw [fileRead_fst, fileWrite_eq]
    simp [FS.readToString, assocFind_assocSet_self]
  · simp [WasmCookiesKvStorage.read, WasmCookiesKvStorage.write,
      wasmCookiesGet, wasmCookiesSet, assocFind_assocSet_self,
      Except.mapError]

theorem C1_witness :
    ((FileBasedKvStorage.mk ["home", "app"]).write "k" "v"
        (FS.mk [] [])).1 = Except.ok () ∧
    ((FileBasedKvStorage.mk ["home", "app"]).read "k"
        ((FileBasedKvStorage.mk ["home", "app"]).write "k" "v"
          (FS.mk [] [])).2).1 = Except.ok "v" ∧
    WasmCookiesKvStorage.read "k"
        (WasmCookiesKvStorage.write "k" "v" []).2 = Except.ok "v" :=
  ⟨by decide,
   (C1_write_then_read (FileBasedKvStorage.mk ["home", "app"]) "k" "v"
      (FS.mk [] []) []).1 (by decide),
   (C1_write_then_read (FileBasedKvStorage.mk ["home", "app"]) "k" "v"
      (FS.mk [] []) []).2.2⟩

/-- C2: the claim says the file backend reads the file at `directory/k`
(`k` joined as a child of the resolved base directory).  The code instead
consults the SIBLING path `base.with_file_name(k)`: with base directory
`AppData/Roaming/PokeIpGo` and key `settings`, a read returns the contents
of `AppData/Roaming/settings`, not of `AppData/Roaming/PokeIpGo/settings`,
and the consulted path differs from the directory-child path. -/
theorem C2_read_consults_sibling_path :
    ((FileBasedKvStorage.mk ["AppData", "Roaming", "PokeIpGo"]).read
        "settings"
        (FS.mk
          [["AppData"], ["AppData", "Roaming"],
            ["AppData", "Roaming", "PokeIpGo"]]
          [(["AppData", "Roaming", "PokeIpGo", "settings"], "child"),
            (["AppData", "Roaming", "settings"], "sibling")])).1 =
      Except.ok "sibling" ∧
    withFileName ["AppData", "Roaming", "PokeIpGo"] "settings" ≠
      ["AppData", "Roaming", "PokeIpGo", "settings"] := by
  constructor
  · decide
  · decide

/-- C3: both file-backend operations locate the key's file at
`base.with_file_name(k)`, i.e. the resolved base path with its final
component replaced by `k` (path-sibling composition) — the same path for
read and write — and, whenever the base path is non-empty, this differs
from appending `k` as a child of the base. -/
theorem C3_path_sibling_composition (st : FileBasedKvStorage)
    (k v : String) (fs : FS) (h : st.base ≠ []) :
    (st.read k fs).1 = fs.readToString (st.base.dropLast ++ [k]) ∧
    (st.write k v fs).2.files =
      assocSet fs.files (st.base.dropLast ++ [k]) v ∧
    st.base.dropLast ++ [k] ≠ st.base ++ [k] := by
  refine ⟨fileRead_fst st k fs, by rw [fileWrite_eq]; simp [withFileName], ?_⟩
  intro hc
  have h2 : st.base.dropLast = st.base := List.append_cancel_right hc
  have hlen := congrArg List.length h2
  rw [List.length_dropLast] at hlen
  have hpos : 0 < st.base.length := List.length_pos.mpr h
  omega

theorem C3_witness :
    ((FileBasedKvStorage.mk ["dir", "app"]).read "k" (FS.mk [] [])).1 =
      (FS.mk [] []).readToString (["dir"] ++ ["k"]) ∧
    ((FileBasedKvStorage.mk ["dir", "app"]).write "k" "v"
        (FS.mk [] [])).2.files =
      assocSet ([] : List (Path × String)) (["dir"] ++ ["k"]) "v" ∧
    (["dir"] ++ ["k"] : Path) ≠ ["dir", "app"] ++ ["k"] :=
  C3_path_sibling_composition (FileBasedKvStorage.mk ["dir", "app"])
    "k" "v" (FS.mk [] []) (by decide)

/-- C4: file-backend absent-key policy: when no file exists at the key's
computed path, `read(k)` fails with a not-found I/O error and in particular
never returns the empty string. -/
theorem C4_absent_key_read_fails (st : FileBasedKvStorage) (k : String)
    (fs : FS) (h : assocFind fs.files (withFileName st.base k) = none) :
    (st.read k fs).1 = Except.error IOError.notFound ∧
    (st.read k fs).1 ≠ Except.ok "" := by
  rw [fileRead_fst]
  simp [FS.readToString, h]

theorem C4_witness :
    ((FileBasedKvStorage.mk ["home", "app"]).read "missing"
        (FS.mk [] [])).1 = Except.error IOError.notFound ∧
    ((FileBasedKvStorage.mk ["home", "app"]).read "missing"
        (FS.mk [] [])).1 ≠ Except.ok "" :=
  C4_absent_key_read_fails (FileBasedKvStorage.mk ["home", "app"])
    "missing" (FS.mk [] []) (by decide)

/-- C5: cookie-backend absent-key policy: when no cookie of name `k` is in
the jar, `read(k)` succeeds with the empty string. -/
theorem C5_cookie_absent_key (k : String) (jar : CookieJar)
    (h : assocFind jar k = none) :
    WasmCookiesKvStorage.read k jar = Except.ok "" := by
  simp [WasmCookiesKvStorage.read, wasmCookiesGet, h]

theorem C5_witness :
    WasmCookiesKvStorage.read "nonexistent" [] = Except.ok "" :=
  C5_cookie_absent_key "nonexistent" [] (by decide)

/-- C6: the cookie backend's write error type (`Infallible`) is
uninhabited, and `write(k, v)` returns success for every key, value and
jar. -/
theorem C6_cookie_write_infallible :
    IsEmpty Infallible ∧
    ∀ (k v : String) (jar : CookieJar),
      (WasmCookiesKvStorage.write k v jar).1 = Except.ok () :=
  ⟨⟨fun e => nomatch e⟩, fun _ _ _ => rfl⟩

/-- C7: overwrite semantics: `write(k, v1)` then `write(k, v2)` then
`read(k)` on the same instance returns exactly `v2`, for both backends. -/
theorem C7_overwrite (st : FileBasedKvStorage) (k v1 v2 : String)
    (fs : FS) (jar : CookieJar) :
    (st.read k (st.write k v2 (st.write k v1 fs).2).2).1 =
      Except.ok v2 ∧
    WasmCookiesKvStorage.read k
        (WasmCookiesKvStorage.write k v2
          (WasmCookiesKvStorage.write k v1 jar).2).2 = Except.ok v2 := by
  constructor
  · rw [fileRead_fst, fileWrite_eq]
    simp [FS.readToString, assocFind_assocSet_self]
  · simp [WasmCookiesKvStorage.read, WasmCookiesKvStorage.write,
      wasmCookiesGet, wasmCookiesSet, assocFind_assocSet_self,
      Except.mapError]

/-- C8: idempotent directory setup: a file-backend write succeeds and
leaves the base directory existing whatever the prior set of directories
was, and both read and write behave identically (same returned value, same
resulting files) whether the target directory pre-exists or not. -/
theorem C8_idempotent_dir_setup (st : FileBasedKvStorage) (k v : String)
    (fs : FS) (d : List Path) :
    (st.write k v fs).1 = Except.ok () ∧
    (st.write k v fs).2.dirExists st.base ∧
    (st.read k (FS.mk d fs.files)).1 = (st.read k fs).1 ∧
    (st.write k v (FS.mk d fs.files)).1 = (st.write k v fs).1 ∧
    (st.write k v (FS.mk d fs.files)).2.files =
      (st.write k v fs).2.files := by
  refine ⟨by rw [fileWrite_eq], ?_, rfl, ?_, ?_⟩
  · rw [fileWrite_eq]
    exact Or.inr (List.mem_append.mpr (Or.inl (self_mem_inits st.base)))
  · rw [fileWrite_eq, fileWrite_eq]
  · rw [fileWrite_eq, fileWrite_eq]

/-- C9: on the desktop (windows) target, construction of the file backend
fails exactly when the `APPDATA` environment variable is absent; when it is
present, construction succeeds with base path `APPDATA/PokeIpGo`
(environment resolution happens only at construction, never per call). -/
theorem C9_missing_appdata (env : String → Option Path) :
    (env "APPDATA" = none →
      FileBasedKvStorage.defaultWindows env = none) ∧
    (∀ p, env "APPDATA" = some p →
      FileBasedKvStorage.defaultWindows env =
        some (FileBasedKvStorage.mk (p ++ [APP_NAME]))) := by
  constructor
  · intro h
    simp [FileBasedKvStorage.defaultWindows, get_roaming_path, h]
  · intro p h
    simp [FileBasedKvStorage.defaultWindows, get_roaming_path, h]

theorem C9_witness :
    FileBasedKvStorage.defaultWindows (fun _ => none) = none ∧
    FileBasedKvStorage.defaultWindows
        (fun _ => some ["C:", "Users", "u", "AppData", "Roaming"]) =
      some (FileBasedKvStorage.mk
        ["C:", "Users", "u", "AppData", "Roaming", "PokeIpGo"]) :=
  ⟨(C9_missing_appdata (fun _ => none)).1 rfl,
   (C9_missing_appdata
      (fun _ => some ["C:", "Users", "u", "AppData", "Roaming"])).2
      ["C:", "Users", "u", "AppData", "Roaming"] rfl⟩

/-- C10: frame property: a file-backend write to key `k` leaves the value
read back for any key whose computed file path differs unchanged. -/
theorem C10_write_frame (st : FileBasedKvStorage) (k kp v : String)
    (fs : FS) (h : withFileName st.base k ≠ withFileName st.base kp) :
    (st.read kp (st.write k v fs).2).1 = (st.read kp fs).1 := by
  rw [fileRead_fst, fileRead_fst, fileWrite_eq]
  simp [FS.readToString,
    assocFind_assocSet_ne _ _ _ _ (Ne.symm h)]

theorem C10_witness :
    ((FileBasedKvStorage.mk ["home", "app"]).read "y"
        ((FileBasedKvStorage.mk ["home", "app"]).write "x" "v"
          (FS.mk [] [(["home", "y"], "old")])).2).1 =
      ((FileBasedKvStorage.mk ["home", "app"]).read "y"
        (FS.mk [] [(["home", "y"], "old")])).1 :=
  C10_write_frame (FileBasedKvStorage.mk ["home", "app"]) "x" "y" "v"
    (FS.mk [] [(["home", "y"], "old")]) (by decide)

end EasyStorage
